import Mathlib

/-!
Shallow embedding of `provider/iam/token_exchange.go` from the
`ibmcloud-volume-interface` package vendored in this repository, together
with models of the collaborator packages it uses (`lib/utils` error
wrapping and retry, the `rest` HTTP client, `encoding/base64`), which are
not part of the vendored sources here and are therefore modelled from the
specification.  Go machine integers are modelled as `Int`, Go `error`
values (nilable) as `Option GoError`, and functions that may panic return
`Option` of their result.
-/

namespace Iam

/-! ## String utilities (Go `strings.Contains`) -/

/-- Leading-match test: does the pattern (first argument) occur at the head
of the character list (second argument)? -/
def leadMatch : List Char → List Char → Bool
  | [], _ => true
  | _ :: _, [] => false
  | p :: ps, c :: cs => p == c && leadMatch ps cs

/-- Character-list model of Go `strings.Contains s pat`: the pattern occurs
as a contiguous run somewhere in `s`. -/
def listContains (pat : List Char) : List Char → Bool
  | [] => pat.isEmpty
  | l@(_ :: rest) => leadMatch pat l || listContains pat rest

/-- Go `strings.Contains`: `pat` occurs as a substring of `s`. -/
def strContains (s pat : String) : Bool :=
  listContains pat.toList s.toList

/-! ## Error model

Go errors in this file come from two constructors: `errors.New` (a plain
text error) and `util.NewError(reasonCode, message, wrapped...)` (a
classified error wrapping a possibly-empty list of causes).  The `util`
package is not under the vendored sources; its error shape is modelled
from the spec. -/

/-- Modelled from the spec: the error values produced by the generic
error-wrapping utility (`util.NewError`, not under `src/`) and by
`errors.New`.  A classified error carries a reason code, a message and a
list of wrapped causes; a simple error is just text. -/
inductive GoError : Type where
  | simple (text : String)
  | classified (code : String) (message : String) (wrapped : List GoError)

/-- Modelled from the spec: `util.NewError` (not under `src/`) builds a
classified error from a reason code, a user message and wrapped causes. -/
def NewError (code message : String) (wrapped : List GoError) : GoError :=
  GoError.classified code message wrapped

/-- The reason code of an error: the classification kind for classified
errors, empty for plain text errors. -/
def GoError.reasonCode : GoError → String
  | .simple _ => ""
  | .classified c _ _ => c

/-- The rendered text of one error layer (Go `err.Error()`). -/
def GoError.text : GoError → String
  | .simple t => t
  | .classified _ m _ => m

mutual
/-- Modelled from the spec: `util.ErrorDeepUnwrapString` (not under
`src/`) — unwraps an error into its chain of underlying causes, each
layer rendered as a string. -/
def ErrorDeepUnwrapString : GoError → List String
  | .simple t => [t]
  | .classified _ m wrapped => m :: deepUnwrapList wrapped

/-- Deep unwrap of a list of wrapped causes, in order. -/
def deepUnwrapList : List GoError → List String
  | [] => []
  | e :: es => ErrorDeepUnwrapString e ++ deepUnwrapList es
end

/-- `IsConnectionError` from `token_exchange.go`: a non-nil error is a
connection error when some layer of its deep-unwrapped string chain
contains the substring "tcp"; a nil error never is. -/
def IsConnectionError : Option GoError → Bool
  | some err => (ErrorDeepUnwrapString err).any (fun werr => strContains werr "tcp")
  | none => false

/-! ## Base64 (Go `encoding/base64` StdEncoding over UTF-8 bytes) -/

/-- Modelled from the spec: the UTF-8 byte sequence of a character, as
used by Go when converting a string to bytes (`[]byte(s)`); the Go
standard library is not under `src/`.  Bytes are natural numbers below
256. -/
def utf8Bytes (c : Char) : List Nat :=
  let n := c.toNat
  if n < 128 then [n]
  else if n < 2048 then [192 + n / 64, 128 + n % 64]
  else if n < 65536 then [224 + n / 4096, 128 + n / 64 % 64, 128 + n % 64]
  else [240 + n / 262144, 128 + n / 4096 % 64, 128 + n / 64 % 64, 128 + n % 64]

/-- The UTF-8 bytes of a string. -/
def stringBytes (s : String) : List Nat :=
  s.toList.flatMap utf8Bytes

/-- The standard base64 alphabet. -/
def base64Alphabet : List Char :=
  "ABCDEFGHIJKLMNOPQRSTUVWXYZabcdefghijklmnopqrstuvwxyz0123456789+/".toList

/-- The base64 digit for a 6-bit value. -/
def base64Digit (n : Nat) : Char :=
  base64Alphabet.getD n 'A'

/-- Modelled from the spec: RFC 4648 standard base64 encoding of a byte
list with `=` padding (Go `base64.StdEncoding.EncodeToString`, not under
`src/`). -/
def base64Chars : List Nat → List Char
  | [] => []
  | [b0] => [base64Digit (b0 / 4), base64Digit (b0 % 4 * 16), '=', '=']
  | [b0, b1] =>
      [base64Digit (b0 / 4), base64Digit (b0 % 4 * 16 + b1 / 16),
       base64Digit (b1 % 16 * 4), '=']
  | b0 :: b1 :: b2 :: rest =>
      base64Digit (b0 / 4) :: base64Digit (b0 % 4 * 16 + b1 / 16) ::
      base64Digit (b1 % 16 * 4 + b2 / 64) :: base64Digit (b2 % 64) ::
      base64Chars rest

/-- Base64 encoding of a string's UTF-8 bytes. -/
def base64Encode (s : String) : String :=
  String.mk (base64Chars (stringBytes s))

/-! ## Data model -/

/-- `AuthConfiguration` from `token_exchange.go`: IAM endpoint and basic
auth client credentials. -/
structure AuthConfiguration : Type where
  IamURL : String
  IamClientID : String
  IamClientSecret : String

/-- `tokenExchangeService`: holds the auth configuration (the HTTP client
is part of the environment and is not modelled as state). -/
structure tokenExchangeService : Type where
  authConfig : AuthConfiguration

/-- Modelled from the spec: `AccessToken` (declared elsewhere in the
`iam` package, not under `src/`) — an opaque bearer token string. -/
structure AccessToken : Type where
  Token : String

/-- Modelled from the spec: `IMSToken` (declared elsewhere in the `iam`
package, not under `src/`) — an integer user ID and a token string. -/
structure IMSToken : Type where
  UserID : Int
  Token : String

/-- `tokenExchangeResponse` from `token_exchange.go`: the parsed success
body shape. -/
structure tokenExchangeResponse : Type where
  AccessToken : String
  ImsToken : String
  ImsUserID : Int

/-- The anonymous error body struct of `sendTokenExchangeRequest`:
message, type, details and the nested requirements code/error. -/
structure tokenExchangeErrorResponse : Type where
  ErrorMessage : String
  ErrorType : String
  ErrorDetails : String
  ReqError : String
  ReqCode : String

/-- The relevant fields a response JSON object may carry; `none` models an
absent field. -/
structure RawBody : Type where
  access_token : Option String
  ims_token : Option String
  ims_user_id : Option Int
  errorMessage : Option String
  errorCode : Option String
  errorDetails : Option String
  requirementsError : Option String
  requirementsCode : Option String

/-- Modelled from the spec: tolerant JSON decoding of the success shape —
absent fields decode to Go zero values (empty string, zero integer). -/
def decodeSuccess (b : RawBody) : tokenExchangeResponse :=
  { AccessToken := b.access_token.getD ""
    ImsToken := b.ims_token.getD ""
    ImsUserID := b.ims_user_id.getD 0 }

/-- Modelled from the spec: tolerant JSON decoding of the error shape —
absent fields decode to empty strings. -/
def decodeError (b : RawBody) : tokenExchangeErrorResponse :=
  { ErrorMessage := b.errorMessage.getD ""
    ErrorType := b.errorCode.getD ""
    ErrorDetails := b.errorDetails.getD ""
    ReqError := b.requirementsError.getD ""
    ReqCode := b.requirementsCode.getD "" }

/-! ## HTTP request model (`rest` package collaborator) -/

/-- Modelled from the spec: the outbound request being built — method,
target URL, headers and form fields (the `rest` package is not under
`src/`). -/
structure RestRequest : Type where
  method : String
  url : String
  headers : List (String × String)
  fields : List (String × String)

/-- Modelled from the spec: `rest.PostRequest` — a POST request to the
given URL with no headers or fields yet. -/
def PostRequest (url : String) : RestRequest :=
  { method := "POST", url := url, headers := [], fields := [] }

/-- Modelled from the spec: `Request.Field` appends a form field. -/
def RestRequest.Field (r : RestRequest) (k v : String) : RestRequest :=
  { r with fields := r.fields ++ [(k, v)] }

/-- Modelled from the spec: `Request.Set` sets a header, replacing any
existing value for the same key. -/
def RestRequest.Set (r : RestRequest) (k v : String) : RestRequest :=
  if (r.headers.map Prod.fst).contains k then
    { r with headers := r.headers.map (fun p => if p.1 == k then (k, v) else p) }
  else
    { r with headers := r.headers ++ [(k, v)] }

/-- One attempt's environment: either the transport fails with an error
and no response at all, or an HTTP response with a status code and a JSON
body arrives. -/
inductive HTTPOutcome : Type where
  | transportFailure (err : GoError)
  | response (statusCode : Int) (body : RawBody)

/-- The response handed back by the rest client: status code plus the
decoded success and error values. -/
structure RestResponse : Type where
  StatusCode : Int
  successV : tokenExchangeResponse
  errorV : tokenExchangeErrorResponse

/-- The all-zero success value (fields untouched by decoding). -/
def zeroSuccess : tokenExchangeResponse :=
  { AccessToken := "", ImsToken := "", ImsUserID := 0 }

/-- The all-zero error value (fields untouched by decoding). -/
def zeroError : tokenExchangeErrorResponse :=
  { ErrorMessage := "", ErrorType := "", ErrorDetails := "", ReqError := "", ReqCode := "" }

/-- Modelled from the spec: `rest.Client.Do` — on transport failure it
returns the transport error and no response; on an HTTP 200 response it
parses the success JSON shape, and on a non-200 response it parses the
error JSON shape, returning no error either way. -/
def restClientDo (outcome : HTTPOutcome) : Except GoError RestResponse :=
  match outcome with
  | .transportFailure err => .error err
  | .response status body =>
      if status = 200 then
        .ok { StatusCode := status, successV := decodeSuccess body, errorV := zeroError }
      else
        .ok { StatusCode := status, successV := zeroSuccess, errorV := decodeError body }

/-! ## sendTokenExchangeRequest -/

/-- One structured log record: level, message, and the `StatusCode`,
`ErrorMessage` and `ErrorType` fields when the source attaches them
(other structured fields are not modelled). -/
structure LogEntry : Type where
  level : String
  message : String
  statusCode : Option Int
  errMessageField : Option String
  errTypeField : Option String

/-- The observable effects of one `sendTokenExchangeRequest` call: the
request as sent (headers set), the log records emitted, and the result —
a parsed success body or a classified error. -/
structure SendResult : Type where
  sentRequest : RestRequest
  log : List LogEntry
  result : Except GoError tokenExchangeResponse

/-- The sentinel requirements code for a temporarily locked account. -/
def accountLockedCode : String :=
  "SoftLayer_Exception_User_Customer_AccountLocked"

/-- The `FailedTokenExchange` error value built for an error body: the
message from `errorMessage`, wrapping a plain error made of the details
plus the nested requirements code and error. -/
def fteError (ev : tokenExchangeErrorResponse) : GoError :=
  NewError "ErrorFailedTokenExchange"
    ("IAM token exchange request failed: " ++ ev.ErrorMessage)
    [GoError.simple (ev.ErrorDetails ++ " " ++ ev.ReqCode ++ ": " ++ ev.ReqError)]

/-- The `ProviderAccountTemporarilyLocked` error value: wraps the
`FailedTokenExchange` error for the same body. -/
def lockedError (ev : tokenExchangeErrorResponse) : GoError :=
  NewError "ErrorProviderAccountTemporarilyLocked"
    "Infrastructure account is temporarily locked" [fteError ev]

/-- `sendTokenExchangeRequest` from `token_exchange.go`: set the
Basic-Auth and Accept headers, perform the request, and classify the
outcome — 200 yields the parsed success body; a non-200 with a non-empty
`errorMessage` yields a `FailedTokenExchange` error (specialised to
`ProviderAccountTemporarilyLocked` when the nested requirements code is
the account-locked sentinel); a transport failure or a non-200 with an
empty `errorMessage` yields an `Unclassified` error. -/
def sendTokenExchangeRequest (cfg : AuthConfiguration) (req : RestRequest)
    (outcome : HTTPOutcome) : SendResult :=
  let basicAuth := cfg.IamClientID ++ ":" ++ cfg.IamClientSecret
  let req' := (req.Set "Authorization" ("Basic " ++ base64Encode basicAuth)).Set
      "Accept" "application/json"
  let log0 : List LogEntry :=
    [{ level := "info", message := "Sending IAM token exchange request", statusCode := none,
       errMessageField := none, errTypeField := none },
     { level := "info", message := "Request is:=================", statusCode := none,
       errMessageField := none, errTypeField := none }]
  match restClientDo outcome with
  | .error err =>
      { sentRequest := req'
        log := log0 ++ [{ level := "error", message := "IAM token exchange request failed",
                          statusCode := none, errMessageField := none, errTypeField := none }]
        result := .error (NewError "ErrorUnclassified" "IAM token exchange request failed" [err]) }
  | .ok resp =>
      if resp.StatusCode = 200 then
        { sentRequest := req'
          log := log0 ++ [{ level := "debug", message := "IAM token exchange request successful",
                            statusCode := none, errMessageField := none, errTypeField := none }]
          result := .ok resp.successV }
      else if resp.errorV.ErrorMessage ≠ "" then
        let err' :=
          if resp.errorV.ReqCode = accountLockedCode then lockedError resp.errorV
          else fteError resp.errorV
        { sentRequest := req'
          log := log0 ++ [{ level := "error",
                            message := "IAM token exchange request failed with message",
                            statusCode := some resp.StatusCode,
                            errMessageField := some resp.errorV.ErrorMessage,
                            errTypeField := some resp.errorV.ErrorType }]
          result := .error err' }
      else
        { sentRequest := req'
          log := log0 ++ [{ level := "error", message := "Unexpected IAM token exchange response",
                            statusCode := some resp.StatusCode,
                            errMessageField := none, errTypeField := none }]
          result := .error (NewError "ErrorUnclassified" "Unexpected IAM token exchange response" []) }

/-! ## Retry executor (`util.ErrorRetrier` collaborator) -/

/-- Modelled from the spec: `util.ErrorRetrier` (not under `src/`) — a
bounded-retry executor configured with a maximum attempt count and a
fixed inter-attempt delay (held in seconds; the sleep itself has no
observable effect in this model). -/
structure ErrorRetrier : Type where
  maxRetryAttempt : Nat
  retryGapSeconds : Nat

/-- Modelled from the spec: `util.NewErrorRetrier` (not under `src/`). -/
def NewErrorRetrier (maxRetryAttempt retryGapSeconds : Nat) : ErrorRetrier :=
  { maxRetryAttempt := maxRetryAttempt, retryGapSeconds := retryGapSeconds }

/-- Modelled from the spec: the loop of `ErrorRetrier.ErrorRetry` (not
under `src/`).  The attempt body receives the attempt index and the
caller state it may update (mirroring the Go closure's captured
variables) and returns the new state, the attempt's error, and a
skip-retry flag.  A nil error stops the loop successfully; a non-nil
error stops it when the skip-retry flag is set or the attempts are
exhausted, surfacing that (last) error; otherwise the loop sleeps for the
fixed interval and retries. -/
def errorRetryGo {σ : Type} (f : Nat → σ → σ × Option GoError × Bool) :
    Nat → Nat → σ → σ × Option GoError
  | _, 0, s => (s, none)
  | i, fuel + 1, s =>
      match f i s with
      | (s', none, _) => (s', none)
      | (s', some e, skip) =>
          if skip || fuel == 0 then (s', some e)
          else errorRetryGo f (i + 1) fuel s'

/-- Modelled from the spec: `ErrorRetrier.ErrorRetry` — run the attempt
body up to `maxRetryAttempt` times starting from the initial caller
state. -/
def ErrorRetry {σ : Type} (r : ErrorRetrier) (f : Nat → σ → σ × Option GoError × Bool)
    (init : σ) : σ × Option GoError :=
  errorRetryGo f 0 r.maxRetryAttempt init

/-! ## The exchange operations -/

/-- `tokenExchangeRequest` from `token_exchange.go`: the per-call state —
the service, the request being built, and the retrier (the rest client
and logger are part of the environment). -/
structure tokenExchangeRequest : Type where
  tes : tokenExchangeService
  request : RestRequest
  errorRetrier : ErrorRetrier

/-- `newTokenExchangeRequest` from `token_exchange.go`: a POST request to
`{IamURL}/oidc/token` and a retrier of 40 attempts at a 3-second
interval (`time.ParseDuration "3s"`). -/
def newTokenExchangeRequest (tes : tokenExchangeService) : tokenExchangeRequest :=
  { tes := tes
    request := PostRequest (tes.authConfig.IamURL ++ "/oidc/token")
    errorRetrier := NewErrorRetrier 40 3 }

/-- The body of the retry closure shared by both exchange helpers:
perform one `sendTokenExchangeRequest` attempt, store its parsed response
(or `none` on failure) in the captured `iamResp` variable, and skip
retrying unless the error is a connection error. -/
def exchangeAttempt (cfg : AuthConfiguration) (req : RestRequest)
    (outcomes : Nat → HTTPOutcome) (i : Nat) (_ : Option tokenExchangeResponse) :
    Option tokenExchangeResponse × Option GoError × Bool :=
  match (sendTokenExchangeRequest cfg req (outcomes i)).result with
  | .ok resp => (some resp, none, !IsConnectionError none)
  | .error e => (none, some e, !IsConnectionError (some e))

/-- `exchangeForAccessToken` from `token_exchange.go`: run the attempt
under the retrier; a surviving error is returned as is, otherwise the
stored response's `access_token` field becomes the `AccessToken`.  `none`
models the nil-pointer dereference the Go code would hit if the retrier
returned a nil error without any attempt having stored a response. -/
def exchangeForAccessToken (r : tokenExchangeRequest) (outcomes : Nat → HTTPOutcome) :
    Option (Except GoError AccessToken) :=
  match ErrorRetry r.errorRetrier (exchangeAttempt r.tes.authConfig r.request outcomes) none with
  | (_, some e) => some (.error e)
  | (some iamResp, none) => some (.ok { Token := iamResp.AccessToken })
  | (none, none) => none

/-- `exchangeForIMSToken` from `token_exchange.go`: as for the access
token, but projecting the `ims_user_id` and `ims_token` fields. -/
def exchangeForIMSToken (r : tokenExchangeRequest) (outcomes : Nat → HTTPOutcome) :
    Option (Except GoError IMSToken) :=
  match ErrorRetry r.errorRetrier (exchangeAttempt r.tes.authConfig r.request outcomes) none with
  | (_, some e) => some (.error e)
  | (some iamResp, none) => some (.ok { UserID := iamResp.ImsUserID, Token := iamResp.ImsToken })
  | (none, none) => none

/-- The request built by `ExchangeRefreshTokenForAccessToken` before
headers are set: grant_type=refresh_token plus the refresh token. -/
def refreshTokenRequest (tes : tokenExchangeService) (refreshToken : String) :
    tokenExchangeRequest :=
  let r := newTokenExchangeRequest tes
  let req := (r.request.Field "grant_type" "refresh_token").Field "refresh_token" refreshToken
  { r with request := req }

/-- `ExchangeRefreshTokenForAccessToken` from `token_exchange.go`. -/
def ExchangeRefreshTokenForAccessToken (tes : tokenExchangeService) (refreshToken : String)
    (outcomes : Nat → HTTPOutcome) : Option (Except GoError AccessToken) :=
  exchangeForAccessToken (refreshTokenRequest tes refreshToken) outcomes

/-- The request built by `ExchangeAccessTokenForIMSToken` before headers
are set: the derive grant with response_type=ims_portal plus the access
token. -/
def accessTokenForIMSRequest (tes : tokenExchangeService) (accessToken : AccessToken) :
    tokenExchangeRequest :=
  let r := newTokenExchangeRequest tes
  let req0 := r.request.Field "grant_type" "urn:ibm:params:oauth:grant-type:derive"
  let req := (req0.Field "response_type" "ims_portal").Field "access_token" accessToken.Token
  { r with request := req }

/-- `ExchangeAccessTokenForIMSToken` from `token_exchange.go`. -/
def ExchangeAccessTokenForIMSToken (tes : tokenExchangeService) (accessToken : AccessToken)
    (outcomes : Nat → HTTPOutcome) : Option (Except GoError IMSToken) :=
  exchangeForIMSToken (accessTokenForIMSRequest tes accessToken) outcomes

/-- The request built by `ExchangeIAMAPIKeyForIMSToken` before headers
are set: the apikey grant with response_type=ims_portal plus the key. -/
def apiKeyForIMSRequest (tes : tokenExchangeService) (iamAPIKey : String) :
    tokenExchangeRequest :=
  let r := newTokenExchangeRequest tes
  let req0 := r.request.Field "grant_type" "urn:ibm:params:oauth:grant-type:apikey"
  let req := (req0.Field "response_type" "ims_portal").Field "apikey" iamAPIKey
  { r with request := req }

/-- `ExchangeIAMAPIKeyForIMSToken` from `token_exchange.go`. -/
def ExchangeIAMAPIKeyForIMSToken (tes : tokenExchangeService) (iamAPIKey : String)
    (outcomes : Nat → HTTPOutcome) : Option (Except GoError IMSToken) :=
  exchangeForIMSToken (apiKeyForIMSRequest tes iamAPIKey) outcomes

/-- The request built by `ExchangeIAMAPIKeyForAccessToken` before headers
are set: the apikey grant plus the key (no response_type). -/
def apiKeyForAccessRequest (tes : tokenExchangeService) (iamAPIKey : String) :
    tokenExchangeRequest :=
  let r := newTokenExchangeRequest tes
  let req := (r.request.Field "grant_type" "urn:ibm:params:oauth:grant-type:apikey").Field "apikey" iamAPIKey
  { r with request := req }

/-- `ExchangeIAMAPIKeyForAccessToken` from `token_exchange.go`. -/
def ExchangeIAMAPIKeyForAccessToken (tes : tokenExchangeService) (iamAPIKey : String)
    (outcomes : Nat → HTTPOutcome) : Option (Except GoError AccessToken) :=
  exchangeForAccessToken (apiKeyForAccessRequest tes iamAPIKey) outcomes

/-- `UpdateAPIKey` from `token_exchange.go`: intentionally unimplemented —
returns the service unchanged and a nil error for any input. -/
def UpdateAPIKey (tes : tokenExchangeService) (_apiKey : String) :
    tokenExchangeService × Option GoError :=
  (tes, none)

/-! ## Concrete example values -/

/-- Example auth configuration. -/
def cfgEx : AuthConfiguration :=
  { IamURL := "https://iam.example.com", IamClientID := "bx", IamClientSecret := "bx" }

/-- Example service. -/
def tesEx : tokenExchangeService :=
  { authConfig := cfgEx }

/-- A 200 body carrying only an access token: `{"access_token":"abc"}`. -/
def accessBodyEx : RawBody :=
  { access_token := some "abc", ims_token := none, ims_user_id := none,
    errorMessage := none, errorCode := none, errorDetails := none,
    requirementsError := none, requirementsCode := none }

/-- A 200 body carrying an IMS token:
`{"ims_token":"t","ims_user_id":7}`. -/
def imsBodyEx : RawBody :=
  { access_token := none, ims_token := some "t", ims_user_id := some 7,
    errorMessage := none, errorCode := none, errorDetails := none,
    requirementsError := none, requirementsCode := none }

/-- A body with every field absent. -/
def emptyBodyEx : RawBody :=
  { access_token := none, ims_token := none, ims_user_id := none,
    errorMessage := none, errorCode := none, errorDetails := none,
    requirementsError := none, requirementsCode := none }

/-- The account-locked error body of the spec's test list. -/
def lockedBodyEx : RawBody :=
  { access_token := none, ims_token := none, ims_user_id := none,
    errorMessage := some "bad", errorCode := some "X", errorDetails := some "d",
    requirementsError := some "locked", requirementsCode := some accountLockedCode }

/-- The same error body with a different requirements code. -/
def otherBodyEx : RawBody :=
  { access_token := none, ims_token := none, ims_user_id := none,
    errorMessage := some "bad", errorCode := some "X", errorDetails := some "d",
    requirementsError := some "locked", requirementsCode := some "Some_Other_Code" }

/-- A transport error whose text contains "tcp". -/
def tcpErrEx : GoError :=
  GoError.simple "dial tcp 10.0.0.1:443: connect: connection refused"

/-- A transport error whose text does not contain "tcp". -/
def plainErrEx : GoError :=
  GoError.simple "x509: certificate has expired"

/-- Environment: every attempt gets a 200 access-token response. -/
def oc200AccessEx : Nat → HTTPOutcome :=
  fun _ => HTTPOutcome.response 200 accessBodyEx

/-- Environment: every attempt gets a 200 IMS-token response. -/
def oc200IMSEx : Nat → HTTPOutcome :=
  fun _ => HTTPOutcome.response 200 imsBodyEx

/-- Environment: every attempt gets a 200 response with an empty body. -/
def oc200EmptyEx : Nat → HTTPOutcome :=
  fun _ => HTTPOutcome.response 200 emptyBodyEx

/-- Environment: every attempt fails at the transport level with a "tcp"
error. -/
def ocTcpFailEx : Nat → HTTPOutcome :=
  fun _ => HTTPOutcome.transportFailure tcpErrEx

/-- Environment: every attempt fails at the transport level with a
non-"tcp" error. -/
def ocPlainFailEx : Nat → HTTPOutcome :=
  fun _ => HTTPOutcome.transportFailure plainErrEx

/-- Environment: every attempt gets a 401 account-locked response. -/
def ocLockedEx : Nat → HTTPOutcome :=
  fun _ => HTTPOutcome.response 401 lockedBodyEx

/-- The error `sendTokenExchangeRequest` produces for a transport failure
with the "tcp" example error. -/
def tcpSendErrEx : GoError :=
  NewError "ErrorUnclassified" "IAM token exchange request failed" [tcpErrEx]

/-- The error `sendTokenExchangeRequest` produces for a transport failure
with the non-"tcp" example error. -/
def plainSendErrEx : GoError :=
  NewError "ErrorUnclassified" "IAM token exchange request failed" [plainErrEx]

/-! ## Helper lemmas about one send attempt -/

theorem send_result_transport (cfg : AuthConfiguration) (req : RestRequest) (terr : GoError) :
    (sendTokenExchangeRequest cfg req (HTTPOutcome.transportFailure terr)).result =
      Except.error (NewError "ErrorUnclassified" "IAM token exchange request failed" [terr]) :=
  rfl

theorem send_result_200 (cfg : AuthConfiguration) (req : RestRequest) (body : RawBody) :
    (sendTokenExchangeRequest cfg req (HTTPOutcome.response 200 body)).result =
      Except.ok (decodeSuccess body) :=
  rfl

theorem send_result_non200_msg (cfg : AuthConfiguration) (req : RestRequest) (st : Int)
    (body : RawBody) (hs : st ≠ 200) (hm : (decodeError body).ErrorMessage ≠ "") :
    (sendTokenExchangeRequest cfg req (HTTPOutcome.response st body)).result =
      Except.error (if (decodeError body).ReqCode = accountLockedCode then
          lockedError (decodeError body)
        else fteError (decodeError body)) := by
  simp [sendTokenExchangeRequest, restClientDo, hs, hm]

theorem send_log_non200_msg (cfg : AuthConfiguration) (req : RestRequest) (st : Int)
    (body : RawBody) (hs : st ≠ 200) (hm : (decodeError body).ErrorMessage ≠ "") :
    ({ level := "error", message := "IAM token exchange request failed with message",
       statusCode := some st, errMessageField := some (decodeError body).ErrorMessage,
       errTypeField := some (decodeError body).ErrorType } : LogEntry) ∈
      (sendTokenExchangeRequest cfg req (HTTPOutcome.response st body)).log := by
  simp [sendTokenExchangeRequest, restClientDo, hs, hm]

theorem send_result_non200_nomsg (cfg : AuthConfiguration) (req : RestRequest) (st : Int)
    (body : RawBody) (hs : st ≠ 200) (hm : (decodeError body).ErrorMessage = "") :
    (sendTokenExchangeRequest cfg req (HTTPOutcome.response st body)).result =
      Except.error (NewError "ErrorUnclassified" "Unexpected IAM token exchange response" []) := by
  simp [sendTokenExchangeRequest, restClientDo, hs, hm]

theorem send_log_non200_nomsg (cfg : AuthConfiguration) (req : RestRequest) (st : Int)
    (body : RawBody) (hs : st ≠ 200) (hm : (decodeError body).ErrorMessage = "") :
    ({ level := "error", message := "Unexpected IAM token exchange response",
       statusCode := some st, errMessageField := none, errTypeField := none } : LogEntry) ∈
      (sendTokenExchangeRequest cfg req (HTTPOutcome.response st body)).log := by
  simp [sendTokenExchangeRequest, restClientDo, hs, hm]

theorem send_sentRequest (cfg : AuthConfiguration) (req : RestRequest) (oc : HTTPOutcome) :
    (sendTokenExchangeRequest cfg req oc).sentRequest =
      (req.Set "Authorization"
        ("Basic " ++ base64Encode (cfg.IamClientID ++ ":" ++ cfg.IamClientSecret))).Set
        "Accept" "application/json" := by
  rcases oc with terr | ⟨st, body⟩
  · rfl
  · by_cases hst : st = 200
    · subst hst; rfl
    · by_cases hmsg : (decodeError body).ErrorMessage = ""
      · simp [sendTokenExchangeRequest, restClientDo, hst, hmsg]
      · simp [sendTokenExchangeRequest, restClientDo, hst, hmsg]

/-! ## Helper lemmas about the retry loop -/

theorem errorRetryGo_firstStop {σ : Type} (f : Nat → σ → σ × Option GoError × Bool)
    (i fuel : Nat) (s : σ) (h : (f i s).2.1 = none) :
    errorRetryGo f i (fuel + 1) s = ((f i s).1, none) := by
  rcases hf : f i s with ⟨s', oe, skip⟩
  rw [hf] at h
  simp only at h
  subst h
  simp [errorRetryGo, hf]

theorem errorRetryGo_firstSkip {σ : Type} (f : Nat → σ → σ × Option GoError × Bool)
    (i fuel : Nat) (s : σ) (e : GoError) (h : (f i s).2.1 = some e)
    (hskip : (f i s).2.2 = true) :
    errorRetryGo f i (fuel + 1) s = ((f i s).1, some e) := by
  rcases hf : f i s with ⟨s', oe, skip⟩
  rw [hf] at h hskip
  simp only at h hskip
  subst h; subst hskip
  simp [errorRetryGo, hf]

theorem errorRetryGo_allFail {σ : Type} (f : Nat → σ → σ × Option GoError × Bool)
    (hconst : ∀ i s s', f i s = f i s') (errs : Nat → GoError) :
    ∀ (fuel i : Nat) (s : σ),
      (∀ j, j ≤ fuel → (f (i + j) s).2.1 = some (errs (i + j)) ∧ (f (i + j) s).2.2 = false) →
      errorRetryGo f i (fuel + 1) s = ((f (i + fuel) s).1, some (errs (i + fuel))) := by
  intro fuel
  induction fuel with
  | zero =>
      intro i s h
      obtain ⟨h1, h2⟩ := h 0 (Nat.le_refl 0)
      simp only [Nat.add_zero] at h1 h2 ⊢
      rcases hf : f i s with ⟨s', oe, skip⟩
      rw [hf] at h1 h2
      simp only at h1 h2
      subst h1; subst h2
      simp [errorRetryGo, hf]
  | succ n ih =>
      intro i s h
      obtain ⟨h1, h2⟩ := h 0 (Nat.zero_le _)
      simp only [Nat.add_zero] at h1 h2
      rcases hf : f i s with ⟨s', oe, skip⟩
      rw [hf] at h1 h2
      simp only at h1 h2
      subst h1; subst h2
      have hstep : errorRetryGo f i (n + 1 + 1) s = errorRetryGo f (i + 1) (n + 1) s' := by
        simp [errorRetryGo, hf]
      rw [hstep]
      have hrec := ih (i + 1) s' (by
        intro j hj
        have hj' : j + 1 ≤ n + 1 := Nat.succ_le_succ hj
        have := h (j + 1) hj'
        have harith : i + (j + 1) = i + 1 + j := by omega
        rw [harith] at this
        rw [hconst (i + 1 + j) s' s]
        exact this)
      rw [hrec, hconst (i + 1 + n) s' s]
      have harith2 : i + 1 + n = i + (n + 1) := by omega
      rw [harith2]

theorem errorRetryGo_none_isSome {τ : Type}
    (f : Nat → Option τ → Option τ × Option GoError × Bool)
    (hok : ∀ j s, (f j s).2.1 = none → (f j s).1.isSome = true) :
    ∀ (fuel i : Nat) (s : Option τ),
      (errorRetryGo f i (fuel + 1) s).2 = none →
      (errorRetryGo f i (fuel + 1) s).1.isSome = true := by
  intro fuel
  induction fuel with
  | zero =>
      intro i s h
      rcases hf : f i s with ⟨s', oe, skip⟩
      rcases oe with _ | e
      · have h1 := hok i s (by rw [hf])
        rw [hf] at h1
        simpa [errorRetryGo, hf] using h1
      · rw [show errorRetryGo f i (0 + 1) s = (s', some e) from by simp [errorRetryGo, hf]] at h
        simp at h
  | succ n ih =>
      intro i s h
      rcases hf : f i s with ⟨s', oe, skip⟩
      rcases oe with _ | e
      · have h1 := hok i s (by rw [hf])
        rw [hf] at h1
        simpa [errorRetryGo, hf] using h1
      · rcases skip with _ | _
        · have hstep : errorRetryGo f i (n + 1 + 1) s = errorRetryGo f (i + 1) (n + 1) s' := by
            simp [errorRetryGo, hf]
          rw [hstep] at h ⊢
          exact ih (i + 1) s' h
        · rw [show errorRetryGo f i (n + 1 + 1) s = (s', some e) from by
              simp [errorRetryGo, hf]] at h
          simp at h

/-! ## Helper lemmas about the shared attempt body -/

theorem exchangeAttempt_ok (cfg : AuthConfiguration) (req : RestRequest)
    (outcomes : Nat → HTTPOutcome) (i : Nat) (s : Option tokenExchangeResponse)
    (resp : tokenExchangeResponse)
    (h : (sendTokenExchangeRequest cfg req (outcomes i)).result = Except.ok resp) :
    exchangeAttempt cfg req outcomes i s = (some resp, none, true) := by
  simp [exchangeAttempt, h, IsConnectionError]

theorem exchangeAttempt_err (cfg : AuthConfiguration) (req : RestRequest)
    (outcomes : Nat → HTTPOutcome) (i : Nat) (s : Option tokenExchangeResponse) (e : GoError)
    (h : (sendTokenExchangeRequest cfg req (outcomes i)).result = Except.error e) :
    exchangeAttempt cfg req outcomes i s = (none, some e, !IsConnectionError (some e)) := by
  simp [exchangeAttempt, h]

theorem exchangeAttempt_const (cfg : AuthConfiguration) (req : RestRequest)
    (outcomes : Nat → HTTPOutcome) (i : Nat) (s s' : Option tokenExchangeResponse) :
    exchangeAttempt cfg req outcomes i s = exchangeAttempt cfg req outcomes i s' :=
  rfl

theorem exchangeAttempt_none_isSome (cfg : AuthConfiguration) (req : RestRequest)
    (outcomes : Nat → HTTPOutcome) (j : Nat) (s : Option tokenExchangeResponse)
    (h : (exchangeAttempt cfg req outcomes j s).2.1 = none) :
    (exchangeAttempt cfg req outcomes j s).1.isSome = true := by
  rcases hr : (sendTokenExchangeRequest cfg req (outcomes j)).result with e | resp
  · rw [exchangeAttempt_err cfg req outcomes j s e hr] at h
    simp at h
  · rw [exchangeAttempt_ok cfg req outcomes j s resp hr]
    rfl

/-! ## Helper lemmas about the two shared exchange helpers -/

theorem exchangeForAccessToken_ok (r : tokenExchangeRequest) (outcomes : Nat → HTTPOutcome)
    (resp : tokenExchangeResponse) (n : Nat) (hn : r.errorRetrier.maxRetryAttempt = n + 1)
    (h : (sendTokenExchangeRequest r.tes.authConfig r.request (outcomes 0)).result =
      Except.ok resp) :
    exchangeForAccessToken r outcomes = some (Except.ok { Token := resp.AccessToken }) := by
  have ha := exchangeAttempt_ok r.tes.authConfig r.request outcomes 0 none resp h
  have hs := errorRetryGo_firstStop (exchangeAttempt r.tes.authConfig r.request outcomes) 0 n
    none (by rw [ha])
  rw [ha] at hs
  simp only at hs
  simp [exchangeForAccessToken, ErrorRetry, hn, hs]

theorem exchangeForIMSToken_ok (r : tokenExchangeRequest) (outcomes : Nat → HTTPOutcome)
    (resp : tokenExchangeResponse) (n : Nat) (hn : r.errorRetrier.maxRetryAttempt = n + 1)
    (h : (sendTokenExchangeRequest r.tes.authConfig r.request (outcomes 0)).result =
      Except.ok resp) :
    exchangeForIMSToken r outcomes =
      some (Except.ok { UserID := resp.ImsUserID, Token := resp.ImsToken }) := by
  have ha := exchangeAttempt_ok r.tes.authConfig r.request outcomes 0 none resp h
  have hs := errorRetryGo_firstStop (exchangeAttempt r.tes.authConfig r.request outcomes) 0 n
    none (by rw [ha])
  rw [ha] at hs
  simp only at hs
  simp [exchangeForIMSToken, ErrorRetry, hn, hs]

theorem exchangeForAccessToken_stopErr (r : tokenExchangeRequest) (outcomes : Nat → HTTPOutcome)
    (e : GoError) (n : Nat) (hn : r.errorRetrier.maxRetryAttempt = n + 1)
    (h : (sendTokenExchangeRequest r.tes.authConfig r.request (outcomes 0)).result =
      Except.error e)
    (hnc : IsConnectionError (some e) = false) :
    exchangeForAccessToken r outcomes = some (Except.error e) := by
  have ha := exchangeAttempt_err r.tes.authConfig r.request outcomes 0 none e h
  rw [hnc] at ha
  have hs := errorRetryGo_firstSkip (exchangeAttempt r.tes.authConfig r.request outcomes) 0 n
    none e (by rw [ha]) (by rw [ha]; rfl)
  rw [ha] at hs
  simp only at hs
  simp [exchangeForAccessToken, ErrorRetry, hn, hs]

theorem exchangeForIMSToken_stopErr (r : tokenExchangeRequest) (outcomes : Nat → HTTPOutcome)
    (e : GoError) (n : Nat) (hn : r.errorRetrier.maxRetryAttempt = n + 1)
    (h : (sendTokenExchangeRequest r.tes.authConfig r.request (outcomes 0)).result =
      Except.error e)
    (hnc : IsConnectionError (some e) = false) :
    exchangeForIMSToken r outcomes = some (Except.error e) := by
  have ha := exchangeAttempt_err r.tes.authConfig r.request outcomes 0 none e h
  rw [hnc] at ha
  have hs := errorRetryGo_firstSkip (exchangeAttempt r.tes.authConfig r.request outcomes) 0 n
    none e (by rw [ha]) (by rw [ha]; rfl)
  rw [ha] at hs
  simp only at hs
  simp [exchangeForIMSToken, ErrorRetry, hn, hs]

theorem exchangeForAccessToken_exhaust (r : tokenExchangeRequest) (outcomes : Nat → HTTPOutcome)
    (errs : Nat → GoError) (n : Nat) (hn : r.errorRetrier.maxRetryAttempt = n + 1)
    (h : ∀ j, j ≤ n →
      (sendTokenExchangeRequest r.tes.authConfig r.request (outcomes j)).result =
        Except.error (errs j) ∧ IsConnectionError (some (errs j)) = true) :
    exchangeForAccessToken r outcomes = some (Except.error (errs n)) := by
  have hs := errorRetryGo_allFail (exchangeAttempt r.tes.authConfig r.request outcomes)
    (fun i s s' => rfl) errs n 0 none (by
      intro j hj
      obtain ⟨h1, h2⟩ := h j hj
      have ha := exchangeAttempt_err r.tes.authConfig r.request outcomes j none (errs j) h1
      rw [h2] at ha
      simp only [Nat.zero_add]
      rw [ha]
      exact ⟨rfl, rfl⟩)
  simp only [Nat.zero_add] at hs
  have ha := exchangeAttempt_err r.tes.authConfig r.request outcomes n none (errs n) (h n
    (Nat.le_refl n)).1
  rw [ha] at hs
  simp only at hs
  simp [exchangeForAccessToken, ErrorRetry, hn, hs]

theorem exchangeForIMSToken_exhaust (r : tokenExchangeRequest) (outcomes : Nat → HTTPOutcome)
    (errs : Nat → GoError) (n : Nat) (hn : r.errorRetrier.maxRetryAttempt = n + 1)
    (h : ∀ j, j ≤ n →
      (sendTokenExchangeRequest r.tes.authConfig r.request (outcomes j)).result =
        Except.error (errs j) ∧ IsConnectionError (some (errs j)) = true) :
    exchangeForIMSToken r outcomes = some (Except.error (errs n)) := by
  have hs := errorRetryGo_allFail (exchangeAttempt r.tes.authConfig r.request outcomes)
    (fun i s s' => rfl) errs n 0 none (by
      intro j hj
      obtain ⟨h1, h2⟩ := h j hj
      have ha := exchangeAttempt_err r.tes.authConfig r.request outcomes j none (errs j) h1
      rw [h2] at ha
      simp only [Nat.zero_add]
      rw [ha]
      exact ⟨rfl, rfl⟩)
  simp only [Nat.zero_add] at hs
  have ha := exchangeAttempt_err r.tes.authConfig r.request outcomes n none (errs n) (h n
    (Nat.le_refl n)).1
  rw [ha] at hs
  simp only at hs
  simp [exchangeForIMSToken, ErrorRetry, hn, hs]

theorem exchangeForAccessToken_total (r : tokenExchangeRequest) (outcomes : Nat → HTTPOutcome)
    (n : Nat) (hn : r.errorRetrier.maxRetryAttempt = n + 1) :
    (∃ t, exchangeForAccessToken r outcomes = some (Except.ok t)) ∨
    (∃ e, exchangeForAccessToken r outcomes = some (Except.error e)) := by
  rcases hr : ErrorRetry r.errorRetrier (exchangeAttempt r.tes.authConfig r.request outcomes)
      none with ⟨st, oe⟩
  rcases oe with _ | e
  · have h2 : (errorRetryGo (exchangeAttempt r.tes.authConfig r.request outcomes) 0 (n + 1)
        none).2 = none := by
      rw [ErrorRetry, hn] at hr
      rw [hr]
    have h1 := errorRetryGo_none_isSome (exchangeAttempt r.tes.authConfig r.request outcomes)
      (exchangeAttempt_none_isSome r.tes.authConfig r.request outcomes) n 0 none h2
    rw [ErrorRetry, hn] at hr
    rw [hr] at h1
    simp only at h1
    rcases st with _ | resp
    · simp at h1
    · left
      refine ⟨{ Token := resp.AccessToken }, ?_⟩
      simp [exchangeForAccessToken, ErrorRetry, hn, hr]
  · right
    refine ⟨e, ?_⟩
    rw [ErrorRetry, hn] at hr
    simp [exchangeForAccessToken, ErrorRetry, hn, hr]

theorem exchangeForIMSToken_total (r : tokenExchangeRequest) (outcomes : Nat → HTTPOutcome)
    (n : Nat) (hn : r.errorRetrier.maxRetryAttempt = n + 1) :
    (∃ t, exchangeForIMSToken r outcomes = some (Except.ok t)) ∨
    (∃ e, exchangeForIMSToken r outcomes = some (Except.error e)) := by
  rcases hr : ErrorRetry r.errorRetrier (exchangeAttempt r.tes.authConfig r.request outcomes)
      none with ⟨st, oe⟩
  rcases oe with _ | e
  · have h2 : (errorRetryGo (exchangeAttempt r.tes.authConfig r.request outcomes) 0 (n + 1)
        none).2 = none := by
      rw [ErrorRetry, hn] at hr
      rw [hr]
    have h1 := errorRetryGo_none_isSome (exchangeAttempt r.tes.authConfig r.request outcomes)
      (exchangeAttempt_none_isSome r.tes.authConfig r.request outcomes) n 0 none h2
    rw [ErrorRetry, hn] at hr
    rw [hr] at h1
    simp only at h1
    rcases st with _ | resp
    · simp at h1
    · left
      refine ⟨{ UserID := resp.ImsUserID, Token := resp.ImsToken }, ?_⟩
      simp [exchangeForIMSToken, ErrorRetry, hn, hr]
  · right
    refine ⟨e, ?_⟩
    rw [ErrorRetry, hn] at hr
    simp [exchangeForIMSToken, ErrorRetry, hn, hr]

/-! ## Claim theorems -/

/-- Claim C1: for every HTTP response with status 200 on the first
attempt, each of the four exchange operations returns, with no error, the
token obtained by projecting the parsed success body into the caller's
token type — the `access_token` field for the access-token operations,
the `ims_user_id` and `ims_token` fields for the IMS-token operations. -/
theorem c1_status200_maps_body (tes : tokenExchangeService) (tok key : String)
    (at0 : AccessToken) (body : RawBody) (outcomes : Nat → HTTPOutcome)
    (h : outcomes 0 = HTTPOutcome.response 200 body) :
    ExchangeRefreshTokenForAccessToken tes tok outcomes =
      some (Except.ok { Token := (decodeSuccess body).AccessToken })
    ∧ ExchangeIAMAPIKeyForAccessToken tes key outcomes =
      some (Except.ok { Token := (decodeSuccess body).AccessToken })
    ∧ ExchangeAccessTokenForIMSToken tes at0 outcomes =
      some (Except.ok ⟨(decodeSuccess body).ImsUserID, (decodeSuccess body).ImsToken⟩)
    ∧ ExchangeIAMAPIKeyForIMSToken tes key outcomes =
      some (Except.ok ⟨(decodeSuccess body).ImsUserID, (decodeSuccess body).ImsToken⟩) := by
  have hsend : ∀ req : RestRequest,
      (sendTokenExchangeRequest tes.authConfig req (outcomes 0)).result =
        Except.ok (decodeSuccess body) := by
    intro req
    rw [h]
    exact send_result_200 tes.authConfig req body
  exact ⟨exchangeForAccessToken_ok (refreshTokenRequest tes tok) outcomes (decodeSuccess body)
      39 rfl (hsend _),
    exchangeForAccessToken_ok (apiKeyForAccessRequest tes key) outcomes (decodeSuccess body)
      39 rfl (hsend _),
    exchangeForIMSToken_ok (accessTokenForIMSRequest tes at0) outcomes (decodeSuccess body)
      39 rfl (hsend _),
    exchangeForIMSToken_ok (apiKeyForIMSRequest tes key) outcomes (decodeSuccess body)
      39 rfl (hsend _)⟩

/-- Witness for C1 at the spec's two example bodies: body
`access_token = "abc"` yields `AccessToken "abc"`, and body
`ims_token = "t", ims_user_id = 7` yields `IMSToken 7 "t"`. -/
theorem c1_status200_maps_body_witness :
    ExchangeRefreshTokenForAccessToken tesEx "refresh" oc200AccessEx =
      some (Except.ok { Token := "abc" })
    ∧ ExchangeAccessTokenForIMSToken tesEx { Token := "a" } oc200IMSEx =
      some (Except.ok { UserID := 7, Token := "t" }) := by
  refine ⟨?_, ?_⟩
  · exact (c1_status200_maps_body tesEx "refresh" "k" { Token := "a" } accessBodyEx
      oc200AccessEx rfl).1
  · exact (c1_status200_maps_body tesEx "k" "k" { Token := "a" } imsBodyEx
      oc200IMSEx rfl).2.2.1

/-- Claim C2: a non-200 response whose parsed error body has a non-empty
`errorMessage` yields exactly the account-locked error kind when the
nested requirements code is the locked sentinel (wrapping the
`FailedTokenExchange` error), and otherwise the `FailedTokenExchange`
error combining the message, details and nested requirement code/error;
the message and type are captured in the emitted log record. -/
theorem c2_non200_classification (cfg : AuthConfiguration) (req : RestRequest) (st : Int)
    (body : RawBody) (hs : st ≠ 200) (hm : (decodeError body).ErrorMessage ≠ "") :
    (sendTokenExchangeRequest cfg req (HTTPOutcome.response st body)).result =
      Except.error (if (decodeError body).ReqCode = accountLockedCode then
        lockedError (decodeError body) else fteError (decodeError body))
    ∧ (∀ e, (sendTokenExchangeRequest cfg req (HTTPOutcome.response st body)).result =
        Except.error e →
        (e.reasonCode = "ErrorProviderAccountTemporarilyLocked" ↔
          (decodeError body).ReqCode = accountLockedCode))
    ∧ ({ level := "error", message := "IAM token exchange request failed with message",
         statusCode := some st, errMessageField := some (decodeError body).ErrorMessage,
         errTypeField := some (decodeError body).ErrorType } : LogEntry) ∈
        (sendTokenExchangeRequest cfg req (HTTPOutcome.response st body)).log := by
  refine ⟨send_result_non200_msg cfg req st body hs hm, ?_,
    send_log_non200_msg cfg req st body hs hm⟩
  intro e he
  rw [send_result_non200_msg cfg req st body hs hm] at he
  by_cases hc : (decodeError body).ReqCode = accountLockedCode
  · rw [if_pos hc] at he
    have he' : e = lockedError (decodeError body) := by
      injection he with h1
      exact h1.symm
    subst he'
    simp [lockedError, NewError, GoError.reasonCode, hc]
  · rw [if_neg hc] at he
    have he' : e = fteError (decodeError body) := by
      injection he with h1
      exact h1.symm
    subst he'
    simp [fteError, NewError, GoError.reasonCode, hc]

/-- Witness for C2: a 401 with the locked sentinel requirements code
yields the locked error wrapping the failed-exchange error; the same body
with a different code yields the failed-exchange error itself. -/
theorem c2_non200_classification_witness :
    (sendTokenExchangeRequest cfgEx (PostRequest "u")
        (HTTPOutcome.response 401 lockedBodyEx)).result =
      Except.error (lockedError (decodeError lockedBodyEx))
    ∧ (sendTokenExchangeRequest cfgEx (PostRequest "u")
        (HTTPOutcome.response 401 otherBodyEx)).result =
      Except.error (fteError (decodeError otherBodyEx)) := by
  refine ⟨?_, ?_⟩
  · exact ((c2_non200_classification cfgEx (PostRequest "u") 401 lockedBodyEx (by decide)
      (by decide)).1).trans rfl
  · exact ((c2_non200_classification cfgEx (PostRequest "u") 401 otherBodyEx (by decide)
      (by decide)).1).trans rfl

/-- Claim C3: the retryability classifier `IsConnectionError` returns true
exactly when the error is non-nil and some layer of its deep-unwrapped
chain of causes, rendered as a string, contains the substring "tcp". -/
theorem c3_connection_iff_tcp (oe : Option GoError) :
    IsConnectionError oe = true ↔
      ∃ e, oe = some e ∧ ∃ s ∈ ErrorDeepUnwrapString e, strContains s "tcp" = true := by
  rcases oe with _ | e
  · simp [IsConnectionError]
  · simp [IsConnectionError, List.any_eq_true]

/-- Claim C5: whatever the outcome, each exchange operation sends exactly
the request of spec §4.1 — a POST to `{IamURL}/oidc/token` with the
`Basic base64(clientID:clientSecret)` Authorization header, the
`application/json` Accept header, and the operation's grant-specific form
fields in order. -/
theorem c5_request_shape (tes : tokenExchangeService) (tok key : String) (at0 : AccessToken)
    (oc : HTTPOutcome) :
    (sendTokenExchangeRequest tes.authConfig (refreshTokenRequest tes tok).request
        oc).sentRequest =
      { method := "POST", url := tes.authConfig.IamURL ++ "/oidc/token",
        headers := [("Authorization", "Basic " ++ base64Encode
            (tes.authConfig.IamClientID ++ ":" ++ tes.authConfig.IamClientSecret)),
          ("Accept", "application/json")],
        fields := [("grant_type", "refresh_token"), ("refresh_token", tok)] }
    ∧ (sendTokenExchangeRequest tes.authConfig (accessTokenForIMSRequest tes at0).request
        oc).sentRequest =
      { method := "POST", url := tes.authConfig.IamURL ++ "/oidc/token",
        headers := [("Authorization", "Basic " ++ base64Encode
            (tes.authConfig.IamClientID ++ ":" ++ tes.authConfig.IamClientSecret)),
          ("Accept", "application/json")],
        fields := [("grant_type", "urn:ibm:params:oauth:grant-type:derive"),
          ("response_type", "ims_portal"), ("access_token", at0.Token)] }
    ∧ (sendTokenExchangeRequest tes.authConfig (apiKeyForIMSRequest tes key).request
        oc).sentRequest =
      { method := "POST", url := tes.authConfig.IamURL ++ "/oidc/token",
        headers := [("Authorization", "Basic " ++ base64Encode
            (tes.authConfig.IamClientID ++ ":" ++ tes.authConfig.IamClientSecret)),
          ("Accept", "application/json")],
        fields := [("grant_type", "urn:ibm:params:oauth:grant-type:apikey"),
          ("response_type", "ims_portal"), ("apikey", key)] }
    ∧ (sendTokenExchangeRequest tes.authConfig (apiKeyForAccessRequest tes key).request
        oc).sentRequest =
      { method := "POST", url := tes.authConfig.IamURL ++ "/oidc/token",
        headers := [("Authorization", "Basic " ++ base64Encode
            (tes.authConfig.IamClientID ++ ":" ++ tes.authConfig.IamClientSecret)),
          ("Accept", "application/json")],
        fields := [("grant_type", "urn:ibm:params:oauth:grant-type:apikey"),
          ("apikey", key)] } := by
  refine ⟨?_, ?_, ?_, ?_⟩ <;>
    rw [send_sentRequest] <;> rfl

/-- Claim C7: every call to each of the four exchange operations yields
exactly one outcome: a token of the type the invoked operation determines
or a single error — never neither (in particular the nil-dereference case
of the model is unreachable) and never both. -/
theorem c7_exactly_one_outcome (tes : tokenExchangeService) (tok key : String)
    (at0 : AccessToken) (outcomes : Nat → HTTPOutcome) :
    ((∃ t, ExchangeRefreshTokenForAccessToken tes tok outcomes = some (Except.ok t)) ∨
      (∃ e, ExchangeRefreshTokenForAccessToken tes tok outcomes = some (Except.error e)))
    ∧ ((∃ t, ExchangeIAMAPIKeyForAccessToken tes key outcomes = some (Except.ok t)) ∨
      (∃ e, ExchangeIAMAPIKeyForAccessToken tes key outcomes = some (Except.error e)))
    ∧ ((∃ t, ExchangeAccessTokenForIMSToken tes at0 outcomes = some (Except.ok t)) ∨
      (∃ e, ExchangeAccessTokenForIMSToken tes at0 outcomes = some (Except.error e)))
    ∧ ((∃ t, ExchangeIAMAPIKeyForIMSToken tes key outcomes = some (Except.ok t)) ∨
      (∃ e, ExchangeIAMAPIKeyForIMSToken tes key outcomes = some (Except.error e))) :=
  ⟨exchangeForAccessToken_total (refreshTokenRequest tes tok) outcomes 39 rfl,
    exchangeForAccessToken_total (apiKeyForAccessRequest tes key) outcomes 39 rfl,
    exchangeForIMSToken_total (accessTokenForIMSRequest tes at0) outcomes 39 rfl,
    exchangeForIMSToken_total (apiKeyForIMSRequest tes key) outcomes 39 rfl⟩

/-- Claim C8: `UpdateAPIKey` is a no-op for every input — it returns no
error and leaves the service state unchanged. -/
theorem c8_updateAPIKey_noop (tes : tokenExchangeService) (key : String) :
    UpdateAPIKey tes key = (tes, none) :=
  rfl

/-- Claim C9: a 200 response is success with no validation of the token
fields — if the body's `access_token` (resp. `ims_token` and
`ims_user_id`) is missing or empty/zero, the operation still returns a
token value with empty token string (and zero user ID) and no error. -/
theorem c9_no_success_validation (tes : tokenExchangeService) (tok key : String)
    (at0 : AccessToken) (body : RawBody) (outcomes : Nat → HTTPOutcome)
    (h : outcomes 0 = HTTPOutcome.response 200 body) :
    (body.access_token.getD "" = "" →
      ExchangeRefreshTokenForAccessToken tes tok outcomes = some (Except.ok { Token := "" })
      ∧ ExchangeIAMAPIKeyForAccessToken tes key outcomes = some (Except.ok { Token := "" }))
    ∧ (body.ims_token.getD "" = "" → body.ims_user_id.getD 0 = 0 →
      ExchangeAccessTokenForIMSToken tes at0 outcomes = some (Except.ok ⟨0, ""⟩)
      ∧ ExchangeIAMAPIKeyForIMSToken tes key outcomes = some (Except.ok ⟨0, ""⟩)) := by
  have hsend : ∀ req : RestRequest,
      (sendTokenExchangeRequest tes.authConfig req (outcomes 0)).result =
        Except.ok (decodeSuccess body) := by
    intro req
    rw [h]
    exact send_result_200 tes.authConfig req body
  constructor
  · intro h1
    have e1 := exchangeForAccessToken_ok (refreshTokenRequest tes tok) outcomes
      (decodeSuccess body) 39 rfl (hsend _)
    have e2 := exchangeForAccessToken_ok (apiKeyForAccessRequest tes key) outcomes
      (decodeSuccess body) 39 rfl (hsend _)
    rw [show (decodeSuccess body).AccessToken = "" from h1] at e1 e2
    exact ⟨e1, e2⟩
  · intro h1 h2
    have e1 := exchangeForIMSToken_ok (accessTokenForIMSRequest tes at0) outcomes
      (decodeSuccess body) 39 rfl (hsend _)
    have e2 := exchangeForIMSToken_ok (apiKeyForIMSRequest tes key) outcomes
      (decodeSuccess body) 39 rfl (hsend _)
    rw [show (decodeSuccess body).ImsToken = "" from h1,
      show (decodeSuccess body).ImsUserID = 0 from h2] at e1 e2
    exact ⟨e1, e2⟩

/-- Witness for C9: a 200 response with an entirely empty body still
succeeds, returning an access token with empty string and an IMS token
with zero user ID and empty string. -/
theorem c9_no_success_validation_witness :
    ExchangeRefreshTokenForAccessToken tesEx "r" oc200EmptyEx = some (Except.ok { Token := "" })
    ∧ ExchangeAccessTokenForIMSToken tesEx { Token := "a" } oc200EmptyEx =
      some (Except.ok ⟨0, ""⟩) := by
  have h := c9_no_success_validation tesEx "r" "k" { Token := "a" } emptyBodyEx oc200EmptyEx rfl
  exact ⟨(h.1 rfl).1, (h.2 rfl rfl).1⟩

/-- Claim C10: a nil error is never a connection error; hence a successful
attempt sets the skip flag true, and the retry loop stops right after any
attempt whose error is nil, however much fuel remains. -/
theorem c10_success_stops_retry :
    IsConnectionError none = false
    ∧ (∀ (cfg : AuthConfiguration) (req : RestRequest) (outcomes : Nat → HTTPOutcome)
        (i : Nat) (s : Option tokenExchangeResponse) (resp : tokenExchangeResponse),
        (sendTokenExchangeRequest cfg req (outcomes i)).result = Except.ok resp →
        exchangeAttempt cfg req outcomes i s = (some resp, none, !IsConnectionError none))
    ∧ (∀ (σ : Type) (f : Nat → σ → σ × Option GoError × Bool) (i fuel : Nat) (s : σ),
        (f i s).2.1 = none → errorRetryGo f i (fuel + 1) s = ((f i s).1, none)) := by
  refine ⟨rfl, ?_, ?_⟩
  · intro cfg req outcomes i s resp hsend
    rw [exchangeAttempt_ok cfg req outcomes i s resp hsend]
    rfl
  · intro σ f i fuel s hnil
    exact errorRetryGo_firstStop f i fuel s hnil

/-- Witness for C10: with a 200 environment the attempt body reports a nil
error and skip-retry, and a 40-attempt loop stops on the first attempt. -/
theorem c10_success_stops_retry_witness :
    exchangeAttempt cfgEx (PostRequest "u") oc200AccessEx 5 none =
      (some (decodeSuccess accessBodyEx), none, !IsConnectionError none)
    ∧ errorRetryGo (exchangeAttempt cfgEx (PostRequest "u") oc200AccessEx) 0 (39 + 1) none =
      ((exchangeAttempt cfgEx (PostRequest "u") oc200AccessEx 0 none).1, none) := by
  refine ⟨?_, ?_⟩
  · exact c10_success_stops_retry.2.1 cfgEx (PostRequest "u") oc200AccessEx 5 none
      (decodeSuccess accessBodyEx) rfl
  · exact c10_success_stops_retry.2.2 (Option tokenExchangeResponse)
      (exchangeAttempt cfgEx (PostRequest "u") oc200AccessEx) 0 39 none rfl

/-- Claim C4: every exchange operation runs its send-and-classify attempt
under the retrier built by `newTokenExchangeRequest` — up to 40 attempts
at a fixed 3-second interval; a first-attempt failure that is not a
connection error ends the call immediately with that error, and forty
consecutive connection-error failures exhaust the attempts and surface
the last (40th) error. -/
theorem c4_retry_policy (tes : tokenExchangeService) (tok key : String) (at0 : AccessToken)
    (outcomes : Nat → HTTPOutcome) :
    ((newTokenExchangeRequest tes).errorRetrier.maxRetryAttempt = 40
      ∧ (newTokenExchangeRequest tes).errorRetrier.retryGapSeconds = 3)
    ∧ (∀ e, (sendTokenExchangeRequest tes.authConfig (refreshTokenRequest tes tok).request
          (outcomes 0)).result = Except.error e →
        IsConnectionError (some e) = false →
        ExchangeRefreshTokenForAccessToken tes tok outcomes = some (Except.error e))
    ∧ (∀ errs : Nat → GoError,
        (∀ j, j ≤ 39 → (sendTokenExchangeRequest tes.authConfig
            (refreshTokenRequest tes tok).request (outcomes j)).result = Except.error (errs j)
          ∧ IsConnectionError (some (errs j)) = true) →
        ExchangeRefreshTokenForAccessToken tes tok outcomes = some (Except.error (errs 39)))
    ∧ (∀ e, (sendTokenExchangeRequest tes.authConfig (apiKeyForAccessRequest tes key).request
          (outcomes 0)).result = Except.error e →
        IsConnectionError (some e) = false →
        ExchangeIAMAPIKeyForAccessToken tes key outcomes = some (Except.error e))
    ∧ (∀ errs : Nat → GoError,
        (∀ j, j ≤ 39 → (sendTokenExchangeRequest tes.authConfig
            (apiKeyForAccessRequest tes key).request (outcomes j)).result = Except.error (errs j)
          ∧ IsConnectionError (some (errs j)) = true) →
        ExchangeIAMAPIKeyForAccessToken tes key outcomes = some (Except.error (errs 39)))
    ∧ (∀ e, (sendTokenExchangeRequest tes.authConfig (accessTokenForIMSRequest tes at0).request
          (outcomes 0)).result = Except.error e →
        IsConnectionError (some e) = false →
        ExchangeAccessTokenForIMSToken tes at0 outcomes = some (Except.error e))
    ∧ (∀ errs : Nat → GoError,
        (∀ j, j ≤ 39 → (sendTokenExchangeRequest tes.authConfig
            (accessTokenForIMSRequest tes at0).request (outcomes j)).result =
            Except.error (errs j)
          ∧ IsConnectionError (some (errs j)) = true) →
        ExchangeAccessTokenForIMSToken tes at0 outcomes = some (Except.error (errs 39)))
    ∧ (∀ e, (sendTokenExchangeRequest tes.authConfig (apiKeyForIMSRequest tes key).request
          (outcomes 0)).result = Except.error e →
        IsConnectionError (some e) = false →
        ExchangeIAMAPIKeyForIMSToken tes key outcomes = some (Except.error e))
    ∧ (∀ errs : Nat → GoError,
        (∀ j, j ≤ 39 → (sendTokenExchangeRequest tes.authConfig
            (apiKeyForIMSRequest tes key).request (outcomes j)).result = Except.error (errs j)
          ∧ IsConnectionError (some (errs j)) = true) →
        ExchangeIAMAPIKeyForIMSToken tes key outcomes = some (Except.error (errs 39))) := by
  refine ⟨⟨rfl, rfl⟩, ?_, ?_, ?_, ?_, ?_, ?_, ?_, ?_⟩
  · intro e hsend hnc
    exact exchangeForAccessToken_stopErr (refreshTokenRequest tes tok) outcomes e 39 rfl
      hsend hnc
  · intro errs hall
    exact exchangeForAccessToken_exhaust (refreshTokenRequest tes tok) outcomes errs 39 rfl hall
  · intro e hsend hnc
    exact exchangeForAccessToken_stopErr (apiKeyForAccessRequest tes key) outcomes e 39 rfl
      hsend hnc
  · intro errs hall
    exact exchangeForAccessToken_exhaust (apiKeyForAccessRequest tes key) outcomes errs 39
      rfl hall
  · intro e hsend hnc
    exact exchangeForIMSToken_stopErr (accessTokenForIMSRequest tes at0) outcomes e 39 rfl
      hsend hnc
  · intro errs hall
    exact exchangeForIMSToken_exhaust (accessTokenForIMSRequest tes at0) outcomes errs 39
      rfl hall
  · intro e hsend hnc
    exact exchangeForIMSToken_stopErr (apiKeyForIMSRequest tes key) outcomes e 39 rfl hsend hnc
  · intro errs hall
    exact exchangeForIMSToken_exhaust (apiKeyForIMSRequest tes key) outcomes errs 39 rfl hall

/-- Witness for C4: a non-"tcp" transport failure surfaces immediately,
and forty consecutive "tcp" transport failures exhaust the retries and
surface the final unclassified error. -/
theorem c4_retry_policy_witness :
    ExchangeRefreshTokenForAccessToken tesEx "r" ocPlainFailEx =
      some (Except.error plainSendErrEx)
    ∧ ExchangeRefreshTokenForAccessToken tesEx "r" ocTcpFailEx =
      some (Except.error tcpSendErrEx) := by
  refine ⟨?_, ?_⟩
  · exact (c4_retry_policy tesEx "r" "k" { Token := "a" } ocPlainFailEx).2.1 plainSendErrEx
      rfl rfl
  · exact (c4_retry_policy tesEx "r" "k" { Token := "a" } ocTcpFailEx).2.2.1
      (fun _ => tcpSendErrEx) (fun j hj => ⟨rfl, rfl⟩)

/-- Claim C6: one send-and-classify attempt yields an Unclassified-kind
error exactly when the transport fails with no response (wrapping the
underlying transport error) or the response is non-200 with an empty
parsed `errorMessage` (with the status code captured in the log record);
every other failure yields a classified, non-Unclassified error. -/
theorem c6_unclassified_iff (cfg : AuthConfiguration) (req : RestRequest) (oc : HTTPOutcome) :
    ((∃ e, (sendTokenExchangeRequest cfg req oc).result = Except.error e ∧
        e.reasonCode = "ErrorUnclassified") ↔
      ((∃ terr, oc = HTTPOutcome.transportFailure terr) ∨
        (∃ st body, oc = HTTPOutcome.response st body ∧ st ≠ 200 ∧
          (decodeError body).ErrorMessage = "")))
    ∧ (∀ terr, oc = HTTPOutcome.transportFailure terr →
        (sendTokenExchangeRequest cfg req oc).result =
          Except.error (NewError "ErrorUnclassified" "IAM token exchange request failed" [terr]))
    ∧ (∀ st body, oc = HTTPOutcome.response st body → st ≠ 200 →
        (decodeError body).ErrorMessage = "" →
        (sendTokenExchangeRequest cfg req oc).result =
          Except.error (NewError "ErrorUnclassified" "Unexpected IAM token exchange response" [])
        ∧ ({ level := "error", message := "Unexpected IAM token exchange response",
             statusCode := some st, errMessageField := none,
             errTypeField := none } : LogEntry) ∈ (sendTokenExchangeRequest cfg req oc).log) := by
  refine ⟨⟨?_, ?_⟩, ?_, ?_⟩
  · rintro ⟨e, he, hcode⟩
    rcases oc with terr | ⟨st, body⟩
    · exact Or.inl ⟨terr, rfl⟩
    · by_cases hst : st = 200
      · subst hst
        rw [send_result_200] at he
        exact Except.noConfusion he
      · by_cases hmsg : (decodeError body).ErrorMessage = ""
        · exact Or.inr ⟨st, body, rfl, hst, hmsg⟩
        · exfalso
          rw [send_result_non200_msg cfg req st body hst hmsg] at he
          injection he with h1
          subst h1
          by_cases hc : (decodeError body).ReqCode = accountLockedCode
          · rw [if_pos hc] at hcode
            simp [lockedError, NewError, GoError.reasonCode] at hcode
          · rw [if_neg hc] at hcode
            simp [fteError, NewError, GoError.reasonCode] at hcode
  · rintro (⟨terr, rfl⟩ | ⟨st, body, rfl, hst, hmsg⟩)
    · exact ⟨_, send_result_transport cfg req terr, rfl⟩
    · exact ⟨_, send_result_non200_nomsg cfg req st body hst hmsg, rfl⟩
  · intro terr hoc
    subst hoc
    exact send_result_transport cfg req terr
  · intro st body hoc hst hmsg
    subst hoc
    exact ⟨send_result_non200_nomsg cfg req st body hst hmsg,
      send_log_non200_nomsg cfg req st body hst hmsg⟩

/-- Witness for C6: a transport failure yields the Unclassified error
wrapping the underlying transport error. -/
theorem c6_unclassified_iff_witness :
    (sendTokenExchangeRequest cfgEx (PostRequest "u")
        (HTTPOutcome.transportFailure plainErrEx)).result = Except.error plainSendErrEx :=
  (c6_unclassified_iff cfgEx (PostRequest "u") (HTTPOutcome.transportFailure plainErrEx)).2.1
    plainErrEx rfl

end Iam
